import Mathlib

/-!
Shallow embedding of the request-construction and URL-serialization core of a
typed REST-API client (five resource collections: books, movies, quotes,
characters, chapters).  Sources embedded: `src/item/mod.rs`,
`src/item/attribute.rs`, `src/item/object.rs`, `src/request/attributes.rs`,
`src/request/filter.rs`, `src/request/sort.rs`, `src/request/pagination.rs`,
`src/request/mod.rs`, `src/error.rs`, `src/client.rs`.
-/

namespace LotrApi

/-- Embedding of `enum ItemType` (`item/mod.rs`). -/
inductive ItemType
  | Book
  | Movie
  | Quote
  | Character
  | Chapter
deriving DecidableEq, Repr

/-- Embedding of `impl GetUrl for ItemType` (`request/attributes.rs`):
the wire path segment of each resource type. -/
def ItemType.get_url : ItemType → String
  | .Book => "book"
  | .Movie => "movie"
  | .Quote => "quote"
  | .Character => "character"
  | .Chapter => "chapter"

/-- Embedding of `impl From<&str> for ItemType` (`item/mod.rs`).
The Rust function panics on any string other than the five wire segments;
the panic branch is modelled as `none`. -/
def ItemType.fromStr (value : String) : Option ItemType :=
  if value = "book" then some .Book
  else if value = "movie" then some .Movie
  else if value = "quote" then some .Quote
  else if value = "character" then some .Character
  else if value = "chapter" then some .Chapter
  else none

/-- Embedding of `enum BookAttribute` (`item/attribute.rs`). -/
inductive BookAttribute
  | Id
  | Name
deriving DecidableEq, Repr

/-- Embedding of `enum MovieAttribute` (`item/attribute.rs`). -/
inductive MovieAttribute
  | Id
  | Name
  | RuntimeInMinutes
  | BudgetInMillions
  | BoxOfficeRevenueInMillions
  | AcademyAwardNominations
  | AcademyAwardWins
  | RottenTomatoesScore
deriving DecidableEq, Repr

/-- Embedding of `enum QuoteAttribute` (`item/attribute.rs`). -/
inductive QuoteAttribute
  | Id
  | Dialog
  | Movie
  | Character
deriving DecidableEq, Repr

/-- Embedding of `enum CharacterAttribute` (`item/attribute.rs`). -/
inductive CharacterAttribute
  | Id
  | Height
  | Gender
  | Birth
  | Spouse
  | Death
  | Realm
  | Hair
  | Name
  | WikiUrl
deriving DecidableEq, Repr

/-- Embedding of `enum ChapterAttribute` (`item/attribute.rs`). -/
inductive ChapterAttribute
  | Id
  | ChapterName
  | Book
deriving DecidableEq, Repr

/-- Embedding of `enum Attribute` (`item/attribute.rs`). -/
inductive Attribute
  | Book (a : BookAttribute)
  | Movie (a : MovieAttribute)
  | Quote (a : QuoteAttribute)
  | Character (a : CharacterAttribute)
  | Chapter (a : ChapterAttribute)
deriving DecidableEq, Repr

/-- Embedding of the inherent `BookAttribute::get_url` (`item/attribute.rs`). -/
def BookAttribute.get_url : BookAttribute → String
  | .Id => "_id"
  | .Name => "name"

/-- Embedding of the inherent `MovieAttribute::get_url` (`item/attribute.rs`). -/
def MovieAttribute.get_url : MovieAttribute → String
  | .Id => "_id"
  | .Name => "name"
  | .RuntimeInMinutes => "runtimeInMinutes"
  | .BudgetInMillions => "budgetInMillions"
  | .BoxOfficeRevenueInMillions => "boxOfficeRevenueInMillions"
  | .AcademyAwardNominations => "academyAwardNominations"
  | .AcademyAwardWins => "academyAwardWins"
  | .RottenTomatoesScore => "rottenTomatoesScore"

/-- Embedding of the inherent `QuoteAttribute::get_url` (`item/attribute.rs`). -/
def QuoteAttribute.get_url : QuoteAttribute → String
  | .Id => "_id"
  | .Dialog => "dialog"
  | .Movie => "movie"
  | .Character => "character"

/-- Embedding of the inherent `CharacterAttribute::get_url` (`item/attribute.rs`). -/
def CharacterAttribute.get_url : CharacterAttribute → String
  | .Id => "_id"
  | .Height => "height"
  | .Gender => "gender"
  | .Birth => "birth"
  | .Spouse => "spouse"
  | .Death => "death"
  | .Realm => "realm"
  | .Hair => "hair"
  | .Name => "name"
  | .WikiUrl => "wikiUrl"

/-- Embedding of the inherent `ChapterAttribute::get_url` (`item/attribute.rs`). -/
def ChapterAttribute.get_url : ChapterAttribute → String
  | .Id => "_id"
  | .ChapterName => "chapterName"
  | .Book => "book"

/-- Embedding of the inherent `Attribute::get_url` (`item/attribute.rs`),
which dispatches to the per-resource inherent tables. -/
def Attribute.get_url : Attribute → String
  | .Book a => a.get_url
  | .Movie a => a.get_url
  | .Quote a => a.get_url
  | .Character a => a.get_url
  | .Chapter a => a.get_url

/-- Embedding of `impl GetUrl for BookAttribute` (`request/attributes.rs`),
the second, trait-based wire-name table. -/
def BookAttribute.get_url' : BookAttribute → String
  | .Id => "_id"
  | .Name => "name"

/-- Embedding of `impl GetUrl for MovieAttribute` (`request/attributes.rs`). -/
def MovieAttribute.get_url' : MovieAttribute → String
  | .Id => "_id"
  | .Name => "name"
  | .RuntimeInMinutes => "runtimeInMinutes"
  | .BudgetInMillions => "budgetInMillions"
  | .BoxOfficeRevenueInMillions => "boxOfficeRevenueInMillions"
  | .AcademyAwardNominations => "academyAwardNominations"
  | .AcademyAwardWins => "academyAwardWins"
  | .RottenTomatoesScore => "rottenTomatoesScore"

/-- Embedding of `impl GetUrl for QuoteAttribute` (`request/attributes.rs`). -/
def QuoteAttribute.get_url' : QuoteAttribute → String
  | .Id => "_id"
  | .Dialog => "dialog"
  | .Movie => "movie"
  | .Character => "character"

/-- Embedding of `impl GetUrl for CharacterAttribute` (`request/attributes.rs`). -/
def CharacterAttribute.get_url' : CharacterAttribute → String
  | .Id => "_id"
  | .Height => "height"
  | .Gender => "gender"
  | .Birth => "birth"
  | .Spouse => "spouse"
  | .Death => "death"
  | .Realm => "realm"
  | .Hair => "hair"
  | .Name => "name"
  | .WikiUrl => "wikiUrl"

/-- Embedding of `impl GetUrl for ChapterAttribute` (`request/attributes.rs`). -/
def ChapterAttribute.get_url' : ChapterAttribute → String
  | .Id => "_id"
  | .ChapterName => "chapterName"
  | .Book => "book"

/-- Embedding of `impl GetUrl for Attribute` (`request/attributes.rs`),
dispatching to the trait-based per-resource tables. -/
def Attribute.get_url' : Attribute → String
  | .Book a => a.get_url'
  | .Movie a => a.get_url'
  | .Quote a => a.get_url'
  | .Character a => a.get_url'
  | .Chapter a => a.get_url'

/-- Embedding of `impl From<Attribute> for ItemType` (`item/attribute.rs`).
Modelled from the spec: the method `Attribute::get_item_type` called in
`request/sort.rs` and `request/filter.rs` is not defined under `src/`; the
spec's `owning_type(attribute) -> ResourceType` (total, pure, determined by
the outer variant) coincides with this conversion, so both are embedded as
this single function. -/
def Attribute.get_item_type : Attribute → ItemType
  | .Book _ => .Book
  | .Movie _ => .Movie
  | .Quote _ => .Quote
  | .Character _ => .Character
  | .Chapter _ => .Chapter

/-- Embedding of `enum Operator` (`request/filter.rs`). -/
inductive Operator
  | Eq
  | Ne
  | Gt
  | Lt
  | Gte
  | Lte
deriving DecidableEq, Repr

/-- Embedding of `impl GetUrl for Operator` (`request/filter.rs`). -/
def Operator.get_url : Operator → String
  | .Eq => "="
  | .Ne => "!="
  | .Gt => ">"
  | .Lt => "<"
  | .Gte => ">="
  | .Lte => "<="

/-- Embedding of `enum Filter` (`request/filter.rs`).  There is no validating
constructor in the source: both variants are freely constructible. -/
inductive Filter
  | Match (attr : Attribute) (operation : Operator) (values : List String)
  | Exists (attr : Attribute) (present : Bool)
deriving DecidableEq, Repr

/-- Embedding of `impl GetUrl for Filter` (`request/filter.rs`).
`values.join(",")` is `String.intercalate ","`. -/
def Filter.get_url : Filter → String
  | .Match attr operation values =>
      attr.get_url ++ operation.get_url ++ String.intercalate "," values
  | .Exists attr present =>
      (if present then "" else "!") ++ attr.get_url

/-- Embedding of `Filter::get_item_type` (`request/filter.rs`). -/
def Filter.get_item_type : Filter → ItemType
  | .Match attr _ _ => attr.get_item_type
  | .Exists attr _ => attr.get_item_type

/-- Embedding of `enum SortOrder` (`request/sort.rs`). -/
inductive SortOrder
  | Ascending
  | Descending
deriving DecidableEq, Repr

/-- Embedding of `impl GetUrl for SortOrder` (`request/sort.rs`). -/
def SortOrder.get_url : SortOrder → String
  | .Ascending => "asc"
  | .Descending => "desc"

/-- Embedding of `struct Sort` (`request/sort.rs`).  Named `Sort'` because
`Sort` is reserved in Lean. -/
structure Sort' where
  sort_type : SortOrder
  sort_by : Attribute
deriving DecidableEq, Repr

/-- Embedding of `Sort::new` (`request/sort.rs`). -/
def Sort'.new (sort_type : SortOrder) (sort_by : Attribute) : Sort' :=
  ⟨sort_type, sort_by⟩

/-- Embedding of `impl GetUrl for Sort` (`request/sort.rs`):
`"sort=" ++ sort_by.get_url ++ ":" ++ sort_type.get_url`. -/
def Sort'.get_url (s : Sort') : String :=
  "sort=" ++ (s.sort_by.get_url ++ ":" ++ s.sort_type.get_url)

/-- Embedding of `Sort::get_item_type` (`request/sort.rs`). -/
def Sort'.get_item_type (s : Sort') : ItemType :=
  s.sort_by.get_item_type

/-- Embedding of `struct Pagination` (`request/pagination.rs`).  The `u32`
fields carry no arithmetic in the source (they are only compared with 0 and
formatted), so they are embedded as `Nat`. -/
structure Pagination where
  limit : Nat
  offset : Nat
  page : Nat
deriving DecidableEq, Repr

/-- Embedding of `Pagination::new` (`request/pagination.rs`). -/
def Pagination.new (limit offset page : Nat) : Pagination :=
  ⟨limit, offset, page⟩

/-- Embedding of `Pagination::get_url` (`request/pagination.rs`): push the
non-zero fields as `key=value` fragments, then join with `&` (empty string
when no fragment was pushed). -/
def Pagination.get_url (p : Pagination) : String :=
  let values : List String :=
    (if p.limit != 0 then ["limit=" ++ toString p.limit] else [])
      ++ (if p.offset != 0 then ["offset=" ++ toString p.offset] else [])
      ++ (if p.page != 0 then ["page=" ++ toString p.page] else [])
  if values.isEmpty then "" else String.intercalate "&" values

/-- Embedding of `enum Error` (`error.rs`).  The payloads of `SerdeJson` and
`Reqwest` are opaque collaborator errors, modelled as their message strings. -/
inductive Error
  | SerdeJson (msg : String)
  | Reqwest (msg : String)
  | InvalidSort
  | InvalidFilter
  | InvalidSecondaryItemType
  | Other (msg : String)
deriving DecidableEq, Repr

/-- Embedding of `struct Request` (`request/mod.rs`). -/
structure Request where
  item_type : ItemType
  id : Option String
  secondary_item_type : Option ItemType
  sort : Option Sort'
  filter : Option Filter
  pagination : Option Pagination
deriving DecidableEq, Repr

/-- Embedding of `Request::new` (`request/mod.rs`). -/
def Request.new (item_type : ItemType) : Request :=
  ⟨item_type, none, none, none, none, none⟩

/-- Embedding of `Request::get_item_type` (`request/mod.rs`): the effective
resource type is the secondary type if present, else the primary type. -/
def Request.get_item_type (r : Request) : ItemType :=
  match r.secondary_item_type with
  | some secondary_item_type => secondary_item_type
  | none => r.item_type

/-- Embedding of `impl GetUrl for Request` (`request/mod.rs`): the path part
built by successive `push_str`, then the optional query built from the
present optional fields in the fixed order sort, filter, pagination. -/
def Request.get_url (r : Request) : String :=
  let url := r.item_type.get_url
  let url := url ++ (match r.id with | some id => "/" ++ id | none => "")
  let url := url ++
    (match r.secondary_item_type with
     | some secondary_item_type => "/" ++ secondary_item_type.get_url
     | none => "")
  let aditional_url : List String :=
    (match r.sort with | some sort => [sort.get_url] | none => [])
      ++ (match r.filter with | some filter => [filter.get_url] | none => [])
      ++ (match r.pagination with | some pagination => [pagination.get_url] | none => [])
  if aditional_url.isEmpty then url
  else url ++ "?" ++ String.intercalate "&" aditional_url

/-- Embedding of `struct RequestBuilder` (`request/mod.rs`): a wrapper around
the request under construction. -/
structure RequestBuilder where
  request : Request
deriving DecidableEq, Repr

/-- Embedding of `RequestBuilder::new` (`request/mod.rs`). -/
def RequestBuilder.new (item_type : ItemType) : RequestBuilder :=
  ⟨Request.new item_type⟩

/-- Embedding of `RequestBuilder::id` (`request/mod.rs`). -/
def RequestBuilder.id (b : RequestBuilder) (id : String) : RequestBuilder :=
  ⟨{ b.request with id := some id }⟩

/-- Embedding of `RequestBuilder::secondary_item_type` (`request/mod.rs`). -/
def RequestBuilder.secondary_item_type (b : RequestBuilder) (t : ItemType) : RequestBuilder :=
  ⟨{ b.request with secondary_item_type := some t }⟩

/-- Embedding of `RequestBuilder::sort` (`request/mod.rs`). -/
def RequestBuilder.sort (b : RequestBuilder) (sort : Sort') : RequestBuilder :=
  ⟨{ b.request with sort := some sort }⟩

/-- Embedding of `RequestBuilder::filter` (`request/mod.rs`). -/
def RequestBuilder.filter (b : RequestBuilder) (filter : Filter) : RequestBuilder :=
  ⟨{ b.request with filter := some filter }⟩

/-- Embedding of `RequestBuilder::pagination` (`request/mod.rs`). -/
def RequestBuilder.pagination (b : RequestBuilder) (pagination : Pagination) : RequestBuilder :=
  ⟨{ b.request with pagination := some pagination }⟩

/-- Embedding of `RequestBuilder::build` (`request/mod.rs`).  The source's
early-return chain — sort check, then filter check, then the
secondary-type-needs-id check — is encoded as a chain of guards in the same
order.  `Option.any` encodes `if let Some(x) = ... { if cond(x) return err }`. -/
def RequestBuilder.build (b : RequestBuilder) : Except Error Request :=
  let item_type := b.request.get_item_type
  if b.request.sort.any fun sort => sort.get_item_type != item_type then
    Except.error Error.InvalidSort
  else if b.request.filter.any fun filter => filter.get_item_type != item_type then
    Except.error Error.InvalidFilter
  else if b.request.secondary_item_type.isSome && b.request.id.isNone then
    Except.error Error.InvalidSecondaryItemType
  else
    Except.ok b.request

/-- Embedding of `struct Book` (`item/object.rs`). -/
structure Book where
  _id : String
  name : String

/-- Embedding of `struct Movie` (`item/object.rs`).  The `f32` fields are
only carried, never computed with; they are modelled as `Float`. -/
structure Movie where
  _id : String
  name : String
  runtime_in_minutes : Float
  budget_in_millions : Float
  box_office_revenue_in_millions : Float
  academy_award_nominations : Nat
  academy_award_wins : Nat
  rotten_tomates_score : Float

/-- Embedding of `struct Quote` (`item/object.rs`). -/
structure Quote where
  _id : String
  dialog : Option String
  movie : String
  character : String
  id : String

/-- Embedding of `struct Character` (`item/object.rs`). -/
structure Character where
  _id : String
  height : Option String
  gender : Option String
  birth : Option String
  spouse : Option String
  death : Option String
  realm : Option String
  hair : Option String
  name : String
  wiki_url : Option String

/-- Embedding of `struct Chapter` (`item/object.rs`). -/
structure Chapter where
  _id : String
  chapter_name : String
  book : String

/-- Embedding of `Client::get_book_by_id` (`client.rs`) after its two
collaborators (fetch, JSON decode) have succeeded: the input is the decoded
contents list; `Vec::pop` yields the last element, and `ok_or` turns `None`
into the error with the source's literal message. -/
def Client.get_book_by_id (books : List Book) : Except Error Book :=
  match books.getLast? with
  | some book => Except.ok book
  | none => Except.error (Error.Other "No book with id \x7b\x7d found")

/-- Embedding of `Client::get_movie_by_id` (`client.rs`) after fetch and
decode succeed. -/
def Client.get_movie_by_id (movies : List Movie) : Except Error Movie :=
  match movies.getLast? with
  | some movie => Except.ok movie
  | none => Except.error (Error.Other "No movie with id \x7b\x7d found")

/-- Embedding of `Client::get_quote_by_id` (`client.rs`) after fetch and
decode succeed. -/
def Client.get_quote_by_id (quotes : List Quote) : Except Error Quote :=
  match quotes.getLast? with
  | some quote => Except.ok quote
  | none => Except.error (Error.Other "No quote with id \x7b\x7d found")

/-- Embedding of `Client::get_character_by_id` (`client.rs`) after fetch and
decode succeed. -/
def Client.get_character_by_id (characters : List Character) : Except Error Character :=
  match characters.getLast? with
  | some character => Except.ok character
  | none => Except.error (Error.Other "No character with id \x7b\x7d found")

/-- Embedding of `Client::get_chapter_by_id` (`client.rs`) after fetch and
decode succeed. -/
def Client.get_chapter_by_id (chapters : List Chapter) : Except Error Chapter :=
  match chapters.getLast? with
  | some chapter => Except.ok chapter
  | none => Except.error (Error.Other "No chapter with id \x7b\x7d found")

/-- One invocation of a `RequestBuilder` setter method, with its argument.
Used to state order-independence of builder construction. -/
inductive BuilderOp
  | id (i : String)
  | secondary_item_type (t : ItemType)
  | sort (s : Sort')
  | filter (f : Filter)
  | pagination (p : Pagination)
deriving DecidableEq, Repr

/-- Apply one builder method invocation to a builder state. -/
def BuilderOp.apply (b : RequestBuilder) (op : BuilderOp) : RequestBuilder :=
  match op with
  | .id i => b.id i
  | .secondary_item_type t => b.secondary_item_type t
  | .sort s => b.sort s
  | .filter f => b.filter f
  | .pagination p => b.pagination p

/-- The request field a builder method invocation writes to. -/
def BuilderOp.field : BuilderOp → Nat
  | .id _ => 0
  | .secondary_item_type _ => 1
  | .sort _ => 2
  | .filter _ => 3
  | .pagination _ => 4

/-- The path part of a request URL as the spec describes it: primary wire
segment, then an id segment if present, then a secondary-type segment if
present. -/
def Request.path_part (r : Request) : String :=
  r.item_type.get_url
    ++ (match r.id with | some id => "/" ++ id | none => "")
    ++ (match r.secondary_item_type with
        | some secondary_item_type => "/" ++ secondary_item_type.get_url
        | none => "")

/-- The query fragments of a request: the serializations of the present
optional fields, in the fixed order sort, filter, pagination. -/
def Request.query_fragments (r : Request) : List String :=
  (match r.sort with | some sort => [sort.get_url] | none => [])
    ++ (match r.filter with | some filter => [filter.get_url] | none => [])
    ++ (match r.pagination with | some pagination => [pagination.get_url] | none => [])

/-- Spec-side validity of a builder state: a set secondary type requires an
id, and any set sort or filter must own the effective resource type. -/
def validState (r : Request) : Prop :=
  ((∃ t, r.secondary_item_type = some t) → r.id ≠ none)
    ∧ (∀ s, r.sort = some s → s.get_item_type = r.get_item_type)
    ∧ (∀ f, r.filter = some f → f.get_item_type = r.get_item_type)

/-- The sort owning-type check of `build` fires on `r`. -/
def sortMismatch (r : Request) : Prop :=
  ∃ s, r.sort = some s ∧ s.get_item_type ≠ r.get_item_type

/-- The filter owning-type check of `build` fires on `r`. -/
def filterMismatch (r : Request) : Prop :=
  ∃ f, r.filter = some f ∧ f.get_item_type ≠ r.get_item_type

/-- The missing-id check of `build` fires on `r`: secondary type set, id
unset. -/
def missingId (r : Request) : Prop :=
  (∃ t, r.secondary_item_type = some t) ∧ r.id = none

/-- C9: the two wire-name tables for attributes agree: for every `Attribute`
value, the `GetUrl` trait implementation of `request/attributes.rs` returns
the same string as the inherent `Attribute::get_url` of `item/attribute.rs`. -/
theorem c9_attribute_tables_agree :
    ∀ a : Attribute, Attribute.get_url' a = Attribute.get_url a := by
  intro a
  cases a <;> rename_i x <;> cases x <;> rfl

/-- C10: `ItemType::from(&str)` is a left inverse of the wire-segment
serialization on the five segments, and every other input reaches the panic
branch (modelled as `none`). -/
theorem c10_item_type_from_str :
    (∀ t : ItemType, ItemType.fromStr (ItemType.get_url t) = some t)
    ∧ ∀ s : String, s ≠ "book" → s ≠ "movie" → s ≠ "quote" → s ≠ "character" →
        s ≠ "chapter" → ItemType.fromStr s = none := by
  constructor
  · intro t
    cases t <;> rfl
  · intro s h1 h2 h3 h4 h5
    simp [ItemType.fromStr, h1, h2, h3, h4, h5]

/-- Witness for C10: a concrete non-segment string maps to the panic branch,
and the segment of `Book` maps back to `Book`. -/
theorem c10_item_type_from_str_witness :
    ItemType.fromStr "legolas" = none ∧ ItemType.fromStr "book" = some ItemType.Book :=
  ⟨c10_item_type_from_str.2 "legolas" (by decide) (by decide) (by decide) (by decide)
      (by decide),
    c10_item_type_from_str.1 ItemType.Book⟩

/-- C6: filter serialization is total and pure; a `Match` serializes to the
wire name, the operator symbol and the comma-joined values (embedded commas
are not escaped, as the two-value conjunct shows), an `Exists` serializes to
the bare wire name when present and to `!` plus the wire name when absent,
and the operator symbols are the six listed comparison symbols. -/
theorem c6_filter_serialization :
    ∀ (a : Attribute) (op : Operator) (vs : List String) (v1 v2 : String),
      Filter.get_url (Filter.Match a op vs)
          = Attribute.get_url a ++ Operator.get_url op ++ String.intercalate "," vs
        ∧ Filter.get_url (Filter.Exists a true) = Attribute.get_url a
        ∧ Filter.get_url (Filter.Exists a false) = "!" ++ Attribute.get_url a
        ∧ Filter.get_url (Filter.Match a op [v1, v2])
          = Attribute.get_url a ++ Operator.get_url op ++ (v1 ++ "," ++ v2)
        ∧ Operator.get_url .Eq = "=" ∧ Operator.get_url .Ne = "!="
        ∧ Operator.get_url .Gt = ">" ∧ Operator.get_url .Lt = "<"
        ∧ Operator.get_url .Gte = ">=" ∧ Operator.get_url .Lte = "<=" := by
  intro a op vs v1 v2
  refine ⟨rfl, ?_, rfl, rfl, rfl, rfl, rfl, rfl, rfl, rfl⟩
  show "" ++ Attribute.get_url a = Attribute.get_url a
  exact String.empty_append _

/-- C7: pagination serialization emits exactly the non-zero fields, each as
its own `key=value` fragment joined with `&` in the order limit, offset,
page, and is the empty string when all three fields are zero; it is total. -/
theorem c7_pagination_serialization :
    ∀ l o p : Nat,
      Pagination.get_url (Pagination.new l o p)
          = String.intercalate "&"
              ((if l = 0 then [] else ["limit=" ++ toString l])
                ++ (if o = 0 then [] else ["offset=" ++ toString o])
                ++ (if p = 0 then [] else ["page=" ++ toString p]))
        ∧ Pagination.get_url (Pagination.new 0 0 0) = "" := by
  intro l o p
  refine ⟨?_, rfl⟩
  by_cases hl : l = 0 <;> by_cases ho : o = 0 <;> by_cases hp : p = 0 <;>
    simp [Pagination.get_url, Pagination.new, hl, ho, hp]
  rfl

/-- C8: for each of the five single-item lookups, when the fetch and decode
collaborators succeed but the decoded collection is empty, the result is the
not-found error (realized as `Error::Other` with the source's literal
message), and that value differs from every other kind of the error
taxonomy: decode errors (`SerdeJson`), fetch errors (`Reqwest`) and the
three build-validation errors. -/
theorem c8_empty_lookup_not_found :
    Client.get_book_by_id [] = Except.error (Error.Other "No book with id \x7b\x7d found")
    ∧ Client.get_movie_by_id [] = Except.error (Error.Other "No movie with id \x7b\x7d found")
    ∧ Client.get_quote_by_id [] = Except.error (Error.Other "No quote with id \x7b\x7d found")
    ∧ Client.get_character_by_id []
        = Except.error (Error.Other "No character with id \x7b\x7d found")
    ∧ Client.get_chapter_by_id []
        = Except.error (Error.Other "No chapter with id \x7b\x7d found")
    ∧ ∀ s t : String,
        Error.Other s ≠ Error.SerdeJson t ∧ Error.Other s ≠ Error.Reqwest t
          ∧ Error.Other s ≠ Error.InvalidSort ∧ Error.Other s ≠ Error.InvalidFilter
          ∧ Error.Other s ≠ Error.InvalidSecondaryItemType := by
  refine ⟨rfl, rfl, rfl, rfl, rfl, ?_⟩
  intro s t
  exact ⟨fun h => Error.noConfusion h, fun h => Error.noConfusion h,
    fun h => Error.noConfusion h, fun h => Error.noConfusion h,
    fun h => Error.noConfusion h⟩

/-- C1 counterexample: a `Match` filter with an empty values sequence exists
as a `Filter` value and serializes successfully — to `"name="` for the
`Book.Name` attribute with operator `Eq` — so its construction does not fail
with `InvalidFilter` and it does reach serialization. -/
theorem c1_counterexample :
    Filter.get_url (Filter.Match (Attribute.Book BookAttribute.Name) Operator.Eq [])
      = "name=" := rfl

/-- C1 amended: `Filter` has no validating constructor; a `Match` with an
empty values sequence is freely constructible, and serializing it succeeds,
yielding the attribute's wire name followed by the operator symbol with no
values. -/
theorem c1_empty_match_serializes :
    ∀ (a : Attribute) (op : Operator),
      Filter.get_url (Filter.Match a op []) = Attribute.get_url a ++ Operator.get_url op := by
  intro a op
  show Attribute.get_url a ++ Operator.get_url op ++ "" = _
  exact String.append_empty _

/-- Builder setter invocations that write different request fields commute. -/
theorem BuilderOp.apply_comm (x y : BuilderOp) (h : x.field ≠ y.field) (b : RequestBuilder) :
    BuilderOp.apply (BuilderOp.apply b x) y = BuilderOp.apply (BuilderOp.apply b y) x := by
  cases x <;> cases y <;> first | rfl | exact absurd rfl h

/-- C5: the built request does not depend on the order of the builder method
invocations — for any list of setter invocations touching pairwise distinct
fields, every permutation folds to the same builder state — and `get_url` is
deterministic: equal `Request` values serialize to equal strings. -/
theorem c5_order_independent :
    (∀ (t : ItemType) (l l' : List BuilderOp),
        l.Perm l' → (l.Pairwise fun x y => x.field ≠ y.field) →
          List.foldl BuilderOp.apply (RequestBuilder.new t) l
            = List.foldl BuilderOp.apply (RequestBuilder.new t) l')
    ∧ ∀ r1 r2 : Request, r1 = r2 → Request.get_url r1 = Request.get_url r2 := by
  constructor
  · intro t l l' hperm hpw
    refine hperm.foldl_eq' ?_ _
    intro x hx y hy z
    rcases eq_or_ne x y with rfl | hxy
    · rfl
    · exact BuilderOp.apply_comm x y (hpw.forall (fun _ _ hab => hab.symm) hx hy hxy) z
  · intro r1 r2 h
    rw [h]

/-- Witness for C5: swapping two concrete distinct-field setter invocations
yields the same builder state. -/
theorem c5_order_independent_witness :
    List.foldl BuilderOp.apply (RequestBuilder.new ItemType.Book)
        [BuilderOp.id "123", BuilderOp.pagination (Pagination.new 10 10 2)]
      = List.foldl BuilderOp.apply (RequestBuilder.new ItemType.Book)
        [BuilderOp.pagination (Pagination.new 10 10 2), BuilderOp.id "123"] :=
  c5_order_independent.1 ItemType.Book _ _ (List.Perm.swap _ _ _)
    (by
      refine List.Pairwise.cons ?_ (List.Pairwise.cons (fun y hy => nomatch hy) List.Pairwise.nil)
      intro y hy
      have hy' := List.mem_singleton.mp hy
      subst hy'
      decide)

/-- C4 counterexample: a built request whose only optional field is an
all-zero pagination serializes to `"book?"` — the `?` is appended although
the single collected fragment is empty — where the claim requires `"book"`. -/
theorem c4_counterexample :
    RequestBuilder.build ((RequestBuilder.new ItemType.Book).pagination (Pagination.new 0 0 0))
        = Except.ok
            { item_type := ItemType.Book, id := none, secondary_item_type := none,
              sort := none, filter := none, pagination := some (Pagination.new 0 0 0) }
      ∧ Request.get_url
            { item_type := ItemType.Book, id := none, secondary_item_type := none,
              sort := none, filter := none, pagination := some (Pagination.new 0 0 0) }
          = "book?"
      ∧ Pagination.get_url (Pagination.new 0 0 0) = "" :=
  ⟨rfl, rfl, rfl⟩

/-- C4 amended: the URL is the path part (primary segment, optional id
segment, optional secondary segment) followed by `?` and the `&`-joined
serializations of the present optional fields, in the fixed order sort,
filter, pagination, whenever at least one optional field is present — even
when a present field serializes to the empty string; with no optional field
present the URL is the bare path, and with no optional parts at all it is
exactly the primary wire segment. -/
theorem c4_url_shape :
    ∀ r : Request,
      (Request.get_url r
          = if r.sort = none ∧ r.filter = none ∧ r.pagination = none then r.path_part
            else r.path_part ++ "?" ++ String.intercalate "&" r.query_fragments)
        ∧ (r.query_fragments = [] ↔ r.sort = none ∧ r.filter = none ∧ r.pagination = none)
        ∧ (r.id = none → r.secondary_item_type = none → r.sort = none → r.filter = none →
            r.pagination = none → Request.get_url r = ItemType.get_url r.item_type) := by
  intro r
  obtain ⟨it, oid, osec, osort, ofil, opag⟩ := r
  refine ⟨?_, ?_, ?_⟩
  · cases osort <;> cases ofil <;> cases opag <;>
      simp [Request.get_url, Request.path_part, Request.query_fragments]
  · cases osort <;> cases ofil <;> cases opag <;> simp [Request.query_fragments]
  · intro h1 h2 h3 h4 h5
    subst h1; subst h2; subst h3; subst h4; subst h5
    simp [Request.get_url]

/-- Witness for C4: a request with no optional fields serializes to exactly
the primary wire segment. -/
theorem c4_url_shape_witness :
    Request.get_url (Request.new ItemType.Book) = ItemType.get_url ItemType.Book :=
  (c4_url_shape (Request.new ItemType.Book)).2.2 rfl rfl rfl rfl rfl

/-- The sort guard of `build` fires exactly on `sortMismatch`. -/
theorem sortMismatch_iff (r : Request) :
    sortMismatch r ↔ (r.sort.any fun sort => sort.get_item_type != r.get_item_type) = true := by
  cases h : r.sort <;> simp [sortMismatch, h, Option.any]

/-- The filter guard of `build` fires exactly on `filterMismatch`. -/
theorem filterMismatch_iff (r : Request) :
    filterMismatch r
      ↔ (r.filter.any fun filter => filter.get_item_type != r.get_item_type) = true := by
  cases h : r.filter <;> simp [filterMismatch, h, Option.any]

/-- The secondary-type guard of `build` fires exactly on `missingId`. -/
theorem missingId_iff (r : Request) :
    missingId r ↔ (r.secondary_item_type.isSome && r.id.isNone) = true := by
  cases h1 : r.secondary_item_type <;> cases h2 : r.id <;> simp [missingId, h1, h2]

/-- `validState` is the absence of all three `build` failure conditions. -/
theorem validState_iff (r : Request) :
    validState r ↔ ¬ sortMismatch r ∧ ¬ filterMismatch r ∧ ¬ missingId r := by
  obtain ⟨it, oid, osec, osort, ofil, opag⟩ := r
  cases osort <;> cases ofil <;> cases osec <;> cases oid <;>
    simp [validState, sortMismatch, filterMismatch, missingId, Request.get_item_type]

/-- C2 counterexample: for the builder state with primary type `Character`,
secondary type `Quote`, no id, and a sort owned by `Book`, `build` fails
with `InvalidSort` (the sort check fires first), not with
`InvalidSecondaryItemType` (the code's missing-id error) as the claim
requires. -/
theorem c2_counterexample :
    RequestBuilder.build
        (((RequestBuilder.new ItemType.Character).secondary_item_type ItemType.Quote).sort
          (Sort'.new SortOrder.Ascending (Attribute.Book BookAttribute.Name)))
      = Except.error Error.InvalidSort
    ∧ Error.InvalidSort ≠ Error.InvalidSecondaryItemType :=
  ⟨rfl, by decide⟩

/-- C2 amended: `build` applies its checks in the fixed order sort
owning-type check (`InvalidSort`), then filter owning-type check
(`InvalidFilter`), then missing-id check (`InvalidSecondaryItemType`); in
particular a state with a mismatched sort fails with `InvalidSort` even when
the secondary type is set and the id unset. -/
theorem c2_check_order :
    ∀ b : RequestBuilder,
      (sortMismatch b.request → RequestBuilder.build b = Except.error Error.InvalidSort)
        ∧ (¬ sortMismatch b.request → filterMismatch b.request →
            RequestBuilder.build b = Except.error Error.InvalidFilter)
        ∧ (¬ sortMismatch b.request → ¬ filterMismatch b.request → missingId b.request →
            RequestBuilder.build b = Except.error Error.InvalidSecondaryItemType)
        ∧ (¬ sortMismatch b.request → ¬ filterMismatch b.request → ¬ missingId b.request →
            RequestBuilder.build b = Except.ok b.request) := by
  intro b
  simp only [RequestBuilder.build]
  split_ifs with h1 h2 h3
  · exact ⟨fun _ => rfl,
      fun hns _ => absurd ((sortMismatch_iff _).mpr h1) hns,
      fun hns _ _ => absurd ((sortMismatch_iff _).mpr h1) hns,
      fun hns _ _ => absurd ((sortMismatch_iff _).mpr h1) hns⟩
  · exact ⟨fun hs => absurd ((sortMismatch_iff _).mp hs) h1,
      fun _ _ => rfl,
      fun _ hnf _ => absurd ((filterMismatch_iff _).mpr h2) hnf,
      fun _ hnf _ => absurd ((filterMismatch_iff _).mpr h2) hnf⟩
  · exact ⟨fun hs => absurd ((sortMismatch_iff _).mp hs) h1,
      fun _ hf => absurd ((filterMismatch_iff _).mp hf) h2,
      fun _ _ _ => rfl,
      fun _ _ hnm => absurd ((missingId_iff _).mpr h3) hnm⟩
  · exact ⟨fun hs => absurd ((sortMismatch_iff _).mp hs) h1,
      fun _ hf => absurd ((filterMismatch_iff _).mp hf) h2,
      fun _ _ hm => absurd ((missingId_iff _).mp hm) h3,
      fun _ _ _ => rfl⟩

/-- Witness for C2: a concrete state with a mismatched sort (a `Quote`
attribute on a `Book` request) fails with `InvalidSort`. -/
theorem c2_check_order_witness :
    RequestBuilder.build
        ((RequestBuilder.new ItemType.Book).sort
          (Sort'.new SortOrder.Ascending (Attribute.Quote QuoteAttribute.Dialog)))
      = Except.error Error.InvalidSort :=
  (c2_check_order _).1
    ⟨Sort'.new SortOrder.Ascending (Attribute.Quote QuoteAttribute.Dialog), rfl, by decide⟩

/-- C3: `build` succeeds with the assembled request exactly when the three
invariants hold (secondary type needs an id; a set sort owns the effective
type; a set filter owns the effective type, the effective type being the
secondary type if present, else the primary); it is total — every outcome is
either the success or one of the three validation errors — and the three
error values are pairwise distinguishable. -/
theorem c3_build_ok_iff :
    ∀ b : RequestBuilder,
      (RequestBuilder.build b = Except.ok b.request ↔ validState b.request)
        ∧ (RequestBuilder.build b = Except.ok b.request
            ∨ RequestBuilder.build b = Except.error Error.InvalidSort
            ∨ RequestBuilder.build b = Except.error Error.InvalidFilter
            ∨ RequestBuilder.build b = Except.error Error.InvalidSecondaryItemType)
        ∧ (Error.InvalidSort ≠ Error.InvalidFilter
            ∧ Error.InvalidSort ≠ Error.InvalidSecondaryItemType
            ∧ Error.InvalidFilter ≠ Error.InvalidSecondaryItemType) := by
  intro b
  simp only [RequestBuilder.build]
  split_ifs with h1 h2 h3
  · exact ⟨iff_of_false (by simp)
        (fun hv => ((validState_iff _).mp hv).1 ((sortMismatch_iff _).mpr h1)),
      Or.inr (Or.inl rfl), by decide, by decide, by decide⟩
  · exact ⟨iff_of_false (by simp)
        (fun hv => ((validState_iff _).mp hv).2.1 ((filterMismatch_iff _).mpr h2)),
      Or.inr (Or.inr (Or.inl rfl)), by decide, by decide, by decide⟩
  · exact ⟨iff_of_false (by simp)
        (fun hv => ((validState_iff _).mp hv).2.2 ((missingId_iff _).mpr h3)),
      Or.inr (Or.inr (Or.inr rfl)), by decide, by decide, by decide⟩
  · exact ⟨iff_of_true rfl ((validState_iff _).mpr
        ⟨fun hs => h1 ((sortMismatch_iff _).mp hs),
          fun hf => h2 ((filterMismatch_iff _).mp hf),
          fun hm => h3 ((missingId_iff _).mp hm)⟩),
      Or.inl rfl, by decide, by decide, by decide⟩

/-- Witness for C3: the plain `Book` request is valid and builds to itself. -/
theorem c3_build_ok_iff_witness :
    RequestBuilder.build (RequestBuilder.new ItemType.Book)
      = Except.ok (RequestBuilder.new ItemType.Book).request :=
  (c3_build_ok_iff (RequestBuilder.new ItemType.Book)).1.mpr
    (by simp [validState, RequestBuilder.new, Request.new])

end LotrApi
